import Mathlib

/-!
Shallow embedding of the DumpMaster64 disk-tools library
(software/pc/libs/disktools.py): BAM bitmap operations, directory
parsing, geometry helpers and the PETSCII/ASCII conversion tables.

Python byte buffers are modelled as List Nat (each element a byte value).
Python indexed reads and writes can raise IndexError, so they are
modelled as Option-valued operations; Python slices never raise and are
modelled as total clamped take/drop.
-/

/-! ## Definitions -/

/-- Python read access buf[i] on a byte buffer: fails (IndexError) when
the index is out of range. Negative indices do not occur in the claims
considered here, so indices are natural numbers. -/
def pyGet (l : List Nat) (i : Nat) : Option Nat := l[i]?

/-- Python write access buf[i] = v: fails (IndexError) when the index is
out of range, otherwise replaces the single element. -/
def pySet (l : List Nat) (i : Nat) (v : Nat) : Option (List Nat) :=
  if i < l.length then some (l.set i v) else none

/-- Python slice buf[a:b] with 0 ≤ a ≤ b: clamped, never fails. -/
def pySlice (l : List Nat) (a b : Nat) : List Nat := (l.take b).drop a

/-- Render a list of code points as a string (Python str values are
carried as code-point lists and converted at the boundary). -/
def toStr (l : List Nat) : String := String.mk (l.map Char.ofNat)

/-- getsectors(track): number of sectors in a track, from the cascade of
comparisons in the source. The Python argument is an int, so the track
is an integer here. -/
def getsectors (track : Int) : Nat :=
  if track < 1 then 0
  else if track < 18 then 21
  else if track < 25 then 19
  else if track < 31 then 18
  else if track < 41 then 17
  else 0

/-- getsectornumber(track, sector): absolute sector number, summing
getsectors(x) for x in range(1, track) and adding the sector. -/
def getsectornumber (track sector : Nat) : Nat :=
  ((List.range' 1 (track - 1)).map (fun x => getsectors (x : Int))).sum + sector

/-- getfilepointer(track, sector): byte offset of the sector in a D64
image. -/
def getfilepointer (track sector : Nat) : Nat :=
  256 * getsectornumber track sector

/-- PETSCII to ASCII conversion table, 256 entries, copied literally. -/
def PETtoASCtable : List Nat := [
  0x00,0x01,0x02,0x03,0x04,0x05,0x06,0x07,0x14,0x09,0x0d,0x11,0x93,0x0a,0x0e,0x0f,
  0x10,0x0b,0x12,0x13,0x08,0x15,0x16,0x17,0x18,0x19,0x1a,0x1b,0x1c,0x1d,0x1e,0x1f,
  0x20,0x21,0x22,0x23,0x24,0x25,0x26,0x27,0x28,0x29,0x2a,0x2b,0x2c,0x2d,0x2e,0x2f,
  0x30,0x31,0x32,0x33,0x34,0x35,0x36,0x37,0x38,0x39,0x3a,0x3b,0x3c,0x3d,0x3e,0x3f,
  0x40,0x61,0x62,0x63,0x64,0x65,0x66,0x67,0x68,0x69,0x6a,0x6b,0x6c,0x6d,0x6e,0x6f,
  0x70,0x71,0x72,0x73,0x74,0x75,0x76,0x77,0x78,0x79,0x7a,0x5b,0x5c,0x5d,0x5e,0x5f,
  0xc0,0xc1,0xc2,0xc3,0xc4,0xc5,0xc6,0xc7,0xc8,0xc9,0xca,0xcb,0xcc,0xcd,0xce,0xcf,
  0xd0,0xd1,0xd2,0xd3,0xd4,0xd5,0xd6,0xd7,0xd8,0xd9,0xda,0xdb,0xdc,0xdd,0xde,0xdf,
  0x80,0x81,0x82,0x83,0x84,0x85,0x86,0x87,0x88,0x89,0x8a,0x8b,0x8c,0x8d,0x8e,0x8f,
  0x90,0x91,0x92,0x0c,0x94,0x95,0x96,0x97,0x98,0x99,0x9a,0x9b,0x9c,0x9d,0x9e,0x9f,
  0xa0,0xa1,0xa2,0xa3,0xa4,0xa5,0xa6,0xa7,0xa8,0xa9,0xaa,0xab,0xac,0xad,0xae,0xaf,
  0xb0,0xb1,0xb2,0xb3,0xb4,0xb5,0xb6,0xb7,0xb8,0xb9,0xba,0xbb,0xbc,0xbd,0xbe,0xbf,
  0x60,0x41,0x42,0x43,0x44,0x45,0x46,0x47,0x48,0x49,0x4a,0x4b,0x4c,0x4d,0x4e,0x4f,
  0x50,0x51,0x52,0x53,0x54,0x55,0x56,0x57,0x58,0x59,0x5a,0x7b,0x7c,0x7d,0x7e,0x7f,
  0xa0,0xa1,0xa2,0xa3,0xa4,0xa5,0xa6,0xa7,0xa8,0xa9,0xaa,0xab,0xac,0xad,0xae,0xaf,
  0xb0,0xb1,0xb2,0xb3,0xb4,0xb5,0xb6,0xb7,0xb8,0xb9,0xba,0xbb,0xbc,0xbd,0xbe,0xbf]

/-- ASCII to PETSCII conversion table, 256 entries, copied literally. -/
def ASCtoPETtable : List Nat := [
  0x00,0x01,0x02,0x03,0x04,0x05,0x06,0x07,0x14,0x20,0x0d,0x11,0x93,0x0a,0x0e,0x0f,
  0x10,0x0b,0x12,0x13,0x08,0x15,0x16,0x17,0x18,0x19,0x1a,0x1b,0x1c,0x1d,0x1e,0x1f,
  0x20,0x21,0x22,0x23,0x24,0x25,0x26,0x27,0x28,0x29,0x2a,0x2b,0x2c,0x2d,0x2e,0x2f,
  0x30,0x31,0x32,0x33,0x34,0x35,0x36,0x37,0x38,0x39,0x3a,0x3b,0x3c,0x3d,0x3e,0x3f,
  0x40,0xc1,0xc2,0xc3,0xc4,0xc5,0xc6,0xc7,0xc8,0xc9,0xca,0xcb,0xcc,0xcd,0xce,0xcf,
  0xd0,0xd1,0xd2,0xd3,0xd4,0xd5,0xd6,0xd7,0xd8,0xd9,0xda,0x5b,0x5c,0x5d,0x5e,0x5f,
  0xc0,0x41,0x42,0x43,0x44,0x45,0x46,0x47,0x48,0x49,0x4a,0x4b,0x4c,0x4d,0x4e,0x4f,
  0x50,0x51,0x52,0x53,0x54,0x55,0x56,0x57,0x58,0x59,0x5a,0xdb,0xdc,0xdd,0xde,0xdf,
  0x80,0x81,0x82,0x83,0x84,0x85,0x86,0x87,0x88,0x89,0x8a,0x8b,0x8c,0x8d,0x8e,0x8f,
  0x90,0x91,0x92,0x0c,0x94,0x95,0x96,0x97,0x98,0x99,0x9a,0x9b,0x9c,0x9d,0x9e,0x9f,
  0xa0,0xa1,0xa2,0xa3,0xa4,0xa5,0xa6,0xa7,0xa8,0xa9,0xaa,0xab,0xac,0xad,0xae,0xaf,
  0xb0,0xb1,0xb2,0xb3,0xb4,0xb5,0xb6,0xb7,0xb8,0xb9,0xba,0xbb,0xbc,0xbd,0xbe,0xbf,
  0x60,0x61,0x62,0x63,0x64,0x65,0x66,0x67,0x68,0x69,0x6a,0x6b,0x6c,0x6d,0x6e,0x6f,
  0x70,0x71,0x72,0x73,0x74,0x75,0x76,0x77,0x78,0x79,0x7a,0x7b,0x7c,0x7d,0x7e,0x7f,
  0xe0,0xe1,0xe2,0xe3,0xe4,0xe5,0xe6,0xe7,0xe8,0xe9,0xea,0xeb,0xec,0xed,0xee,0xef,
  0xf0,0xf1,0xf2,0xf3,0xf4,0xf5,0xf6,0xf7,0xf8,0xf9,0xfa,0xfb,0xfc,0xfd,0xfe,0xff]

/-- The byte offset computed inline by blockisfree, allocateblock and
deallocateblock: 4 * track + 1 + sector / 8 (integer division). -/
def bamoffset (track sector : Nat) : Nat := 4 * track + 1 + sector / 8

/-- BAM.__init__(bam): stores the buffer with no validation at all. -/
def BAMinit (bam : List Nat) : Option (List Nat) := some bam

/-- BAM.blockisfree(track, sector): bam[4*track + 1 + sector // 8] with
the bit mask 1 << (sector % 8), compared against 0. -/
def blockisfree (bam : List Nat) (track sector : Nat) : Option Bool :=
  (pyGet bam (bamoffset track sector)).map
    (fun b => decide (0 < (b &&& (1 <<< (sector % 8)))))

/-- BAM.allocateblock(track, sector): clears the bit via
temp &= 255 - (1 << (sector % 8)) and writes the byte back. -/
def allocateblock (bam : List Nat) (track sector : Nat) : Option (List Nat) := do
  let temp ← pyGet bam (bamoffset track sector)
  pySet bam (bamoffset track sector) (temp &&& (255 - (1 <<< (sector % 8))))

/-- BAM.deallocateblock(track, sector): sets the bit via
temp |= 1 << (sector % 8) and writes the byte back. -/
def deallocateblock (bam : List Nat) (track sector : Nat) : Option (List Nat) := do
  let temp ← pyGet bam (bamoffset track sector)
  pySet bam (bamoffset track sector) (temp ||| (1 <<< (sector % 8)))

/-- Loop body of BAM.getblocksfree: skip offset 0x48, otherwise read the
byte and add it to the running total. -/
def gbfStep (bam : List Nat) (acc x : Nat) : Option Nat :=
  if x = 0x48 then pure acc else (pyGet bam x).map (fun b => acc + b)

/-- BAM.getblocksfree(): the loop for x in range(0x04, 0x90, 0x04) as a
monadic fold of gbfStep, starting from 0. -/
def getblocksfree (bam : List Nat) : Option Nat :=
  (List.range' 4 35 4).foldlM (gbfStep bam) 0

/-- A 256-byte BAM sector in which track 1 is fully free: free-count
byte 21 at offset 4, bitmap bytes FF FF 1F at offsets 5..7 (21 bits
set), every other byte zero. -/
def C1bam : List Nat := List.replicate 4 0 ++ [21, 0xFF, 0xFF, 0x1F] ++ List.replicate 248 0

/-- Conclusion of claim C4: blockisfree reads exactly the bit
sector mod 8 of the byte at bamoffset; allocateblock rewrites that byte
with exactly that bit cleared and deallocateblock with exactly that bit
set (all other bits of the byte unchanged); both operations are
idempotent. -/
def C4property (buf : List Nat) (track sector : Nat) : Prop :=
  blockisfree buf track sector =
    some ((buf.getD (bamoffset track sector) 0).testBit (sector % 8)) ∧
  allocateblock buf track sector =
    some (buf.set (bamoffset track sector)
      ((buf.getD (bamoffset track sector) 0) &&& (255 - (1 <<< (sector % 8))))) ∧
  ((buf.getD (bamoffset track sector) 0) &&& (255 - (1 <<< (sector % 8)))).testBit
    (sector % 8) = false ∧
  (∀ j, j ≠ sector % 8 →
    ((buf.getD (bamoffset track sector) 0) &&& (255 - (1 <<< (sector % 8)))).testBit j
      = (buf.getD (bamoffset track sector) 0).testBit j) ∧
  deallocateblock buf track sector =
    some (buf.set (bamoffset track sector)
      ((buf.getD (bamoffset track sector) 0) ||| (1 <<< (sector % 8)))) ∧
  ((buf.getD (bamoffset track sector) 0) ||| (1 <<< (sector % 8))).testBit (sector % 8)
    = true ∧
  (∀ j, j ≠ sector % 8 →
    ((buf.getD (bamoffset track sector) 0) ||| (1 <<< (sector % 8))).testBit j
      = (buf.getD (bamoffset track sector) 0).testBit j) ∧
  (allocateblock buf track sector).bind (fun b2 => allocateblock b2 track sector)
    = allocateblock buf track sector ∧
  (deallocateblock buf track sector).bind (fun b2 => deallocateblock b2 track sector)
    = deallocateblock buf track sector

/-- A 256-byte all-zero sector buffer, used as a concrete instance. -/
def zeros256 : List Nat := List.replicate 256 0

/-- blocksFree as the spec words it: the sum of the free-count bytes at
offsets 4 * track for tracks 1..35, with offset 0x48 (track 18) always
excluded. -/
def blocksFreeSpec (bam : List Nat) : Nat :=
  ((((List.range' 1 35).map (fun track => 4 * track)).filter
      (fun x => x ≠ 0x48)).map (fun x => bam.getD x 0)).sum

/-- Conclusion of claim C5: getblocksfree computes the spec sum, and the
byte at offset 0x48 never influences the result. -/
def C5property (buf : List Nat) : Prop :=
  getblocksfree buf = some (blocksFreeSpec buf) ∧
  ∀ v, getblocksfree (buf.set 0x48 v) = getblocksfree buf

/-- Conclusion of claim C7: allocateblock and deallocateblock succeed
and leave every byte other than the single addressed bitmap byte
untouched; in particular the free-count byte at offset 4 * track is
unchanged. -/
def C7property (buf : List Nat) (track sector : Nat) : Prop :=
  (∃ buf2, allocateblock buf track sector = some buf2 ∧
    (∀ i2, i2 ≠ bamoffset track sector → buf2[i2]? = buf[i2]?) ∧
    buf2[4 * track]? = buf[4 * track]?) ∧
  (∃ buf2, deallocateblock buf track sector = some buf2 ∧
    (∀ i2, i2 ≠ bamoffset track sector → buf2[i2]? = buf[i2]?) ∧
    buf2[4 * track]? = buf[4 * track]?)

/-- Conclusion of claim C8 (amended): on a 256-byte buffer the three
bitmap operations succeed exactly when the computed byte offset is in
range; no track bound is ever checked. -/
def C8property (buf : List Nat) (track sector : Nat) : Prop :=
  ((blockisfree buf track sector).isSome = true ↔ bamoffset track sector < 256) ∧
  ((allocateblock buf track sector).isSome = true ↔ bamoffset track sector < 256) ∧
  ((deallocateblock buf track sector).isSome = true ↔ bamoffset track sector < 256)

/-- PETtoASC on a byte list, as code points: each byte is looked up in
PETtoASCtable (bytes are below 256 in Python, so the lookup can only
fail for non-byte values). -/
def PETtoASCl (line : List Nat) : Option (List Nat) :=
  line.mapM (fun x => PETtoASCtable[x]?)

/-- PETtoASC(line): the resulting ASCII string. -/
def PETtoASC (line : List Nat) : Option String :=
  (PETtoASCl line).map toStr

/-- ASCtoPET on a code-point list: each character code is looked up in
ASCtoPETtable (fails for code points at 256 and above, as in Python). -/
def ASCtoPETl (line : List Nat) : Option (List Nat) :=
  line.mapM (fun x => ASCtoPETtable[x]?)

/-- PETdelpadding(line): drop every 0xA0 byte, keeping the order. -/
def PETdelpadding (line : List Nat) : List Nat :=
  line.filter (fun x => x ≠ 0xA0)

/-- The single-byte round trip of claim C2:
ASCtoPET(PETtoASC(bytes([b]))) as a code-point list. -/
def byteRoundtrip (b : Nat) : Option (List Nat) :=
  (PETtoASCl [b]).bind ASCtoPETl

/-- BAM.getdiskname() as code points: bytes 0x90..0x9F, padding
stripped, converted through the table. -/
def getdisknameL (bam : List Nat) : Option (List Nat) :=
  PETtoASCl (PETdelpadding (pySlice bam 0x90 0xA0))

/-- BAM.getdiskname(): the disk name string. -/
def getdiskname (bam : List Nat) : Option String :=
  (getdisknameL bam).map toStr

/-- BAM.getdiskident() as code points: bytes 0xA2..0xA3 converted. -/
def getdiskidentL (bam : List Nat) : Option (List Nat) :=
  PETtoASCl (pySlice bam 0xA2 0xA4)

/-- BAM.getdiskident(): the disk id string. -/
def getdiskident (bam : List Nat) : Option String :=
  (getdiskidentL bam).map toStr

/-- Python str.ljust(w): pad on the right with spaces up to width w,
never truncating. -/
def ljust (s : List Nat) (w : Nat) : List Nat :=
  s ++ List.replicate (w - s.length) 0x20

/-- Python str.upper() on one code point, for the code points reachable
here (the Latin-1 range): ASCII lowercase and the accented 0xE0..0xFE
range (except 0xF7) move down by 0x20; 0xDF expands to SS; 0xB5 and
0xFF map outside Latin-1; everything else is unchanged. -/
def pyUpperChar (c : Nat) : List Nat :=
  if c = 0xDF then [0x53, 0x53]
  else if 0x61 ≤ c ∧ c ≤ 0x7A then [c - 0x20]
  else if c = 0xB5 then [0x39C]
  else if c = 0xFF then [0x178]
  else if 0xE0 ≤ c ∧ c ≤ 0xFE ∧ c ≠ 0xF7 then [c - 0x20]
  else [c]

/-- Python str.upper() over a code-point list. -/
def pyUpper (l : List Nat) : List Nat :=
  (l.map pyUpperChar).flatten

/-- BAM.getheader() as code points: the literal prefix, the quoted name
left-justified to 19, the id left-justified to 3, the DOS marker bytes,
all uppercased. -/
def getheader (bam : List Nat) : Option (List Nat) := do
  let name ← getdisknameL bam
  let ident ← getdiskidentL bam
  let dos ← PETtoASCl (pySlice bam 0xA5 0xA7)
  pure (pyUpper ([0x30, 0x20, 0x20, 0x20, 0x20, 0x22] ++
    ljust (name ++ [0x22]) 19 ++ ljust ident 3 ++ dos))

/-- FILETYPES constant. -/
def FILETYPES : List String := ["DEL", "SEQ", "PRG", "USR", "REL"]

/-- int.from_bytes(bytes, little): little-endian value of a byte list. -/
def fromBytesLE (l : List Nat) : Nat :=
  l.foldr (fun b acc => b + 256 * acc) 0

/-- One parsed directory entry (the dict built in Dir.dirpass). -/
structure FileEntry where
  base : Nat
  ftype : String
  locked : Bool
  closed : Bool
  track : Nat
  sector : Nat
  name : String
  size : Nat
deriving DecidableEq

/-- Body of the non-empty branch of Dir.dirpass for the slot at the
given base offset with type byte tb: file type from the low 3 bits
(IndexError for values 5..7), flag bits 6 and 7, start track/sector,
padding-stripped name, little-endian 16-bit size. -/
def parseEntry (dir : List Nat) (base tb : Nat) : Option FileEntry := do
  let ty ← FILETYPES[tb &&& 0x07]?
  let tr ← pyGet dir (base + 0x03)
  let se ← pyGet dir (base + 0x04)
  let nm ← PETtoASCl (PETdelpadding (pySlice dir (base + 0x05) (base + 0x15)))
  pure ⟨base, ty, 0 < (tb &&& 0x40), 0 < (tb &&& 0x80), tr, se, toStr nm,
        fromBytesLE (pySlice dir (base + 0x1E) (base + 0x20))⟩

/-- The slot loop of Dir.dirpass over the remaining slot indices,
carrying the accumulated entry list: a slot whose type byte is zero is
skipped, any other slot is parsed and appended. -/
def dirpassAux (dir : List Nat) : List Nat → List FileEntry → Option (List FileEntry)
  | [], acc => some acc
  | ptr :: rest, acc => do
      let tb ← pyGet dir (0x20 * ptr + 0x02)
      if 0 < tb then do
        let e ← parseEntry dir (0x20 * ptr) tb
        dirpassAux dir rest (acc ++ [e])
      else dirpassAux dir rest acc

/-- The file-list part of Dir.dirpass: slots 0 .. len(dir)//0x20 - 1. -/
def dirpass (dir : List Nat) : Option (List FileEntry) :=
  dirpassAux dir (List.range (dir.length / 0x20)) []

/-- The parsed directory structure (the fields Dir.dirpass sets). -/
structure DirStruct where
  title : String
  ident : String
  blocksfree : Nat
  header : String
  filelist : List FileEntry
deriving DecidableEq

/-- Dir.__init__(dirblocks): split into the BAM sector (first 256
bytes) and the directory slots (the rest), then run the parse pass.
No length validation happens anywhere. -/
def Dirinit (dirblocks : List Nat) : Option DirStruct := do
  let bam := pySlice dirblocks 0 256
  let dir := dirblocks.drop 256
  let title ← getdiskname bam
  let ident ← getdiskident bam
  let bfree ← getblocksfree bam
  let header ← getheader bam
  let fl ← dirpass dir
  pure ⟨title, ident, bfree, toStr header, fl⟩

/-- The BAM sector of the C6 scenario: disk name TEST DISK in PETSCII
(uppercase letters are 0xC1..0xDA) padded with 0xA0 to 16 bytes at
0x90, disk id 8A at 0xA2, all other bytes zero. -/
def C6bam : List Nat :=
  List.replicate 144 0 ++
  [0xD4, 0xC5, 0xD3, 0xD4, 0x20, 0xC4, 0xC9, 0xD3, 0xCB] ++
  List.replicate 7 0xA0 ++
  [0, 0] ++ [0x38, 0xC1] ++ List.replicate 92 0

/-- The single occupied 32-byte directory slot of the C6 scenario: type
byte 0x82 (closed PRG, not locked), start track 17 sector 0, name HELLO
padded with 0xA0, size 5 blocks little-endian. -/
def C6slot : List Nat :=
  [0, 0, 0x82, 17, 0] ++ [0xC8, 0xC5, 0xCC, 0xCC, 0xCF] ++
  List.replicate 11 0xA0 ++ List.replicate 9 0 ++ [5, 0]

/-- The full C6 scenario buffer: the BAM sector plus one directory
sector holding the slot above followed by empty (type byte 0) slots. -/
def C6buf : List Nat := C6bam ++ C6slot ++ List.replicate 224 0

/-- The concrete scenario half of claim C6. -/
def C6scenarioProp : Prop :=
  (Dirinit C6buf).map (fun d => d.title) = some "TEST DISK" ∧
  (Dirinit C6buf).map (fun d => d.filelist.length) = some 1 ∧
  ((Dirinit C6buf).bind (fun d => d.filelist[0]?)).map (fun e => e.name) = some "HELLO" ∧
  ((Dirinit C6buf).bind (fun d => d.filelist[0]?)).map (fun e => e.ftype) = some "PRG" ∧
  ((Dirinit C6buf).bind (fun d => d.filelist[0]?)).map (fun e => e.size) = some 5 ∧
  ((Dirinit C6buf).bind (fun d => d.filelist[0]?)).map (fun e => e.closed) = some true ∧
  ((Dirinit C6buf).bind (fun d => d.filelist[0]?)).map (fun e => e.locked) = some false

/-- The general half of claim C6: no entry of a successful parse comes
from a slot whose type byte is zero. -/
def C6skipProp (dir : List Nat) (ptr : Nat) (fl : List FileEntry) : Prop :=
  ∀ e ∈ fl, e.base ≠ 0x20 * ptr

/-! ## Theorems -/

theorem pyGet_eq_getD (l : List Nat) (i : Nat) (h : i < l.length) :
    pyGet l i = some (l.getD i 0) := by
  unfold pyGet
  rw [List.getD_eq_getElem?_getD, List.getElem?_eq_getElem h]
  rfl

theorem pyGet_isSome (l : List Nat) (i : Nat) :
    (pyGet l i).isSome = true ↔ i < l.length := by
  unfold pyGet
  rcases Nat.lt_or_ge i l.length with h | h
  · simp [List.getElem?_eq_getElem h, h]
  · rw [List.getElem?_eq_none h]
    simp
    omega

theorem and_mask_testBit (b k j : Nat) (hb : b < 256) (hk : k < 8) :
    (b &&& (255 - (1 <<< k))).testBit j = if j = k then false else b.testBit j := by
  rw [Nat.shiftLeft_eq, one_mul, Nat.testBit_and]
  by_cases hj : j < 8
  · have hmask : (255 - 2 ^ k).testBit j = !(decide (j = k)) := by
      interval_cases k <;> interval_cases j <;> decide
    rw [hmask]
    by_cases hjk : j = k <;> simp [hjk]
  · have h256 : (256 : Nat) ≤ 2 ^ j := by
      calc (256 : Nat) = 2 ^ 8 := by norm_num
        _ ≤ 2 ^ j := Nat.pow_le_pow_right (by norm_num) (by omega)
    have h1 : b.testBit j = false := Nat.testBit_lt_two_pow (lt_of_lt_of_le hb h256)
    have h2 : j ≠ k := by omega
    simp [h1, h2]

theorem or_mask_testBit (b k j : Nat) :
    (b ||| (1 <<< k)).testBit j = if j = k then true else b.testBit j := by
  rw [Nat.shiftLeft_eq, one_mul, Nat.testBit_or, Nat.testBit_two_pow]
  by_cases hjk : j = k
  · simp [hjk]
  · have : k ≠ j := fun hc => hjk hc.symm
    simp [hjk, this]

theorem and_pos_iff_testBit (b k : Nat) :
    decide (0 < (b &&& (1 <<< k))) = b.testBit k := by
  rw [Nat.shiftLeft_eq, one_mul, Nat.and_two_pow]
  cases h : b.testBit k <;> simp [Nat.pos_pow_of_pos]

set_option maxRecDepth 10000 in
/-- Claim C1 counterexample: from the fully free track-1 sector,
deallocateblock(1,0) sets the free bit, so blockisfree(1,0) afterwards
returns true, not false as the claim states. -/
theorem C1_counterexample :
    (deallocateblock C1bam 1 0).bind (fun b => blockisfree b 1 0) ≠ some false ∧
    (deallocateblock C1bam 1 0).bind (fun b => blockisfree b 1 0) = some true := by
  decide

set_option maxRecDepth 10000 in
/-- Claim C1 (amended): from the fully free track-1 sector,
allocateblock(1,0) makes blockisfree(1,0) return false, and
allocateblock(1,0) followed by deallocateblock(1,0) restores the
original sector bytes exactly. -/
theorem C1_alloc_then_dealloc_roundtrip :
    (allocateblock C1bam 1 0).bind (fun b => blockisfree b 1 0) = some false ∧
    (allocateblock C1bam 1 0).bind (fun b => deallocateblock b 1 0) = some C1bam := by
  decide

/-- Claim C4: bit-exact semantics and idempotence of the three BAM
bitmap operations, for any buffer in which the addressed byte exists and
is a byte value. -/
theorem C4_bam_bit_semantics (buf : List Nat) (track sector : Nat)
    (h : bamoffset track sector < buf.length)
    (hb : buf.getD (bamoffset track sector) 0 < 256) :
    C4property buf track sector := by
  have hk : sector % 8 < 8 := Nat.mod_lt _ (by norm_num)
  have hget := pyGet_eq_getD buf (bamoffset track sector) h
  refine ⟨?_, ?_, ?_, ?_, ?_, ?_, ?_, ?_, ?_⟩
  · simp [blockisfree, hget, and_pos_iff_testBit]
  · simp [allocateblock, hget, pySet, h]
  · rw [and_mask_testBit _ _ _ hb hk]
    simp
  · intro j hj
    rw [and_mask_testBit _ _ _ hb hk, if_neg hj]
  · simp [deallocateblock, hget, pySet, h]
  · rw [or_mask_testBit]
    simp
  · intro j hj
    rw [or_mask_testBit, if_neg hj]
  · have e1 : allocateblock buf track sector =
        some (buf.set (bamoffset track sector)
          ((buf.getD (bamoffset track sector) 0) &&& (255 - (1 <<< (sector % 8))))) := by
      simp [allocateblock, hget, pySet, h]
    have hget2 : pyGet (buf.set (bamoffset track sector)
        ((buf.getD (bamoffset track sector) 0) &&& (255 - (1 <<< (sector % 8)))))
        (bamoffset track sector) =
        some ((buf.getD (bamoffset track sector) 0) &&& (255 - (1 <<< (sector % 8)))) := by
      unfold pyGet
      exact List.getElem?_set_self h
    rw [e1, Option.some_bind]
    simp only [allocateblock]
    rw [hget2]
    simp only [Option.bind_eq_bind, Option.some_bind]
    rw [Nat.and_assoc, Nat.and_self]
    simp only [pySet, List.length_set]
    rw [if_pos h, List.set_set]
  · have e1 : deallocateblock buf track sector =
        some (buf.set (bamoffset track sector)
          ((buf.getD (bamoffset track sector) 0) ||| (1 <<< (sector % 8)))) := by
      simp [deallocateblock, hget, pySet, h]
    have hget2 : pyGet (buf.set (bamoffset track sector)
        ((buf.getD (bamoffset track sector) 0) ||| (1 <<< (sector % 8))))
        (bamoffset track sector) =
        some ((buf.getD (bamoffset track sector) 0) ||| (1 <<< (sector % 8))) := by
      unfold pyGet
      exact List.getElem?_set_self h
    rw [e1, Option.some_bind]
    simp only [deallocateblock]
    rw [hget2]
    simp only [Option.bind_eq_bind, Option.some_bind]
    rw [Nat.or_assoc, Nat.or_self]
    simp only [pySet, List.length_set]
    rw [if_pos h, List.set_set]

set_option maxRecDepth 10000 in
/-- Witness for claim C4 on the all-zero 256-byte buffer at track 1,
sector 0. -/
theorem C4_bam_bit_semantics_witness :
    (bamoffset 1 0 < zeros256.length ∧ zeros256.getD (bamoffset 1 0) 0 < 256) ∧
    C4property zeros256 1 0 :=
  ⟨⟨by decide, by decide⟩, C4_bam_bit_semantics zeros256 1 0 (by decide) (by decide)⟩

/-- Unfolding of getblocksfree over any list of offsets whose non-0x48
members are in range: the fold succeeds and returns the accumulator plus
the sum of the bytes at the offsets other than 0x48. -/
theorem gbf_fold (bam : List Nat) (l : List Nat) :
    ∀ acc : Nat, (∀ x ∈ l, x ≠ 0x48 → x < bam.length) →
    l.foldlM (gbfStep bam) acc =
      some (acc + ((l.filter (fun x => x ≠ 0x48)).map (fun x => bam.getD x 0)).sum) := by
  induction l with
  | nil => intro acc _; simp
  | cons x xs ih =>
    intro acc h
    rw [List.foldlM_cons]
    by_cases hx : x = 0x48
    · subst hx
      have hstep : gbfStep bam acc 0x48 = pure acc := by simp [gbfStep]
      rw [hstep]
      have hrest := ih acc (fun y hy hne => h y (List.mem_cons_of_mem _ hy) hne)
      simpa using hrest
    · have hlt : x < bam.length := h x (List.mem_cons_self _ _) hx
      have hstep : gbfStep bam acc x = some (acc + bam.getD x 0) := by
        simp [gbfStep, hx, pyGet_eq_getD bam x hlt]
      rw [hstep]
      simp only [Option.bind_eq_bind, Option.some_bind]
      rw [ih (acc + bam.getD x 0) (fun y hy hne => h y (List.mem_cons_of_mem _ hy) hne)]
      simp [List.filter_cons, hx, Nat.add_assoc]

/-- Claim C5: on any 256-byte BAM buffer, getblocksfree sums the
free-count bytes of tracks 1..35 excluding track 18, and rewriting the
track-18 free-count byte to any value leaves the result unchanged. -/
theorem C5_blocksfree_excludes_track18 (buf : List Nat) (h : buf.length = 256) :
    C5property buf := by
  have hmem : ∀ x ∈ List.range' 4 35 4, x ≠ 0x48 → x < buf.length := by
    intro x hx _
    rw [List.mem_range'] at hx
    obtain ⟨i2, hi, rfl⟩ := hx
    omega
  have hlist : (List.range' 1 35).map (fun track => 4 * track) = List.range' 4 35 4 := by
    decide
  constructor
  · rw [getblocksfree, gbf_fold buf _ 0 hmem, blocksFreeSpec, hlist]
    simp
  · intro v
    have hmem2 : ∀ x ∈ List.range' 4 35 4, x ≠ 0x48 → x < (buf.set 0x48 v).length := by
      intro x hx hne
      rw [List.length_set]
      exact hmem x hx hne
    rw [getblocksfree, getblocksfree, gbf_fold _ _ 0 hmem2, gbf_fold buf _ 0 hmem]
    have hmap : (((List.range' 4 35 4).filter (fun x => x ≠ 0x48)).map
          (fun x => (buf.set 0x48 v).getD x 0)) =
        (((List.range' 4 35 4).filter (fun x => x ≠ 0x48)).map
          (fun x => buf.getD x 0)) := by
      apply List.map_congr_left
      intro x hx
      have hne : x ≠ 0x48 := by
        have := List.of_mem_filter hx
        simpa using this
      rw [List.getD_eq_getElem?_getD, List.getD_eq_getElem?_getD,
        List.getElem?_set_ne (fun hc => hne hc.symm)]
    rw [hmap]

set_option maxRecDepth 10000 in
/-- Witness for claim C5 on the all-zero 256-byte buffer. -/
theorem C5_blocksfree_excludes_track18_witness :
    zeros256.length = 256 ∧ C5property zeros256 :=
  ⟨by decide, C5_blocksfree_excludes_track18 zeros256 (by decide)⟩

/-- Claim C7: for every track/sector pair in valid geometry and every
256-byte buffer, the two mutating BAM operations modify no byte other
than the bitmap byte at bamoffset. -/
theorem C7_frame (buf : List Nat) (track sector : Nat)
    (h1 : 1 ≤ track) (h2 : track ≤ 40) (h3 : sector < getsectors (track : Int))
    (h4 : buf.length = 256) :
    C7property buf track sector := by
  have hsec : sector ≤ 20 := by
    have hle : getsectors (track : Int) ≤ 21 := by
      simp only [getsectors]
      split_ifs <;> omega
    omega
  have hoff : bamoffset track sector < buf.length := by
    simp only [bamoffset]
    omega
  have hget := pyGet_eq_getD buf (bamoffset track sector) hoff
  have hfc : 4 * track ≠ bamoffset track sector := by
    simp only [bamoffset]
    omega
  constructor
  · refine ⟨buf.set (bamoffset track sector)
      ((buf.getD (bamoffset track sector) 0) &&& (255 - (1 <<< (sector % 8)))),
      ?_, ?_, ?_⟩
    · simp [allocateblock, hget, pySet, hoff]
    · intro i2 hi2
      exact List.getElem?_set_ne (fun hc => hi2 hc.symm)
    · exact List.getElem?_set_ne (fun hc => hfc hc.symm)
  · refine ⟨buf.set (bamoffset track sector)
      ((buf.getD (bamoffset track sector) 0) ||| (1 <<< (sector % 8))),
      ?_, ?_, ?_⟩
    · simp [deallocateblock, hget, pySet, hoff]
    · intro i2 hi2
      exact List.getElem?_set_ne (fun hc => hi2 hc.symm)
    · exact List.getElem?_set_ne (fun hc => hfc hc.symm)

set_option maxRecDepth 10000 in
/-- Witness for claim C7 on the all-zero 256-byte buffer at track 1,
sector 0. -/
theorem C7_frame_witness :
    (1 ≤ 1 ∧ 1 ≤ 40 ∧ 0 < getsectors ((1 : Nat) : Int) ∧ zeros256.length = 256) ∧
    C7property zeros256 1 0 :=
  ⟨⟨by decide, by decide, by decide, by decide⟩,
   C7_frame zeros256 1 0 (by decide) (by decide) (by decide) (by decide)⟩

/-- Claim C8 (amended): the BAM operations perform no geometry check;
on a 256-byte buffer they fail if and only if the computed offset
4*track + 1 + sector/8 is at least 256, so out-of-geometry tracks such
as 0 or 41..63 complete silently on an in-bounds byte. -/
theorem C8_error_iff_offset_out_of_range (buf : List Nat) (track sector : Nat)
    (h : buf.length = 256) :
    C8property buf track sector := by
  refine ⟨?_, ?_, ?_⟩
  · by_cases hoff : bamoffset track sector < 256
    · have hget := pyGet_eq_getD buf (bamoffset track sector) (by omega)
      simp [blockisfree, hget, hoff]
    · have hnone : pyGet buf (bamoffset track sector) = none := by
        unfold pyGet
        rw [List.getElem?_eq_none]
        omega
      simp [blockisfree, hnone, hoff]
  · by_cases hoff : bamoffset track sector < 256
    · have hget := pyGet_eq_getD buf (bamoffset track sector) (by omega)
      simp [allocateblock, hget, pySet, h, hoff]
    · have hnone : pyGet buf (bamoffset track sector) = none := by
        unfold pyGet
        rw [List.getElem?_eq_none]
        omega
      simp [allocateblock, hnone, hoff]
  · by_cases hoff : bamoffset track sector < 256
    · have hget := pyGet_eq_getD buf (bamoffset track sector) (by omega)
      simp [deallocateblock, hget, pySet, h, hoff]
    · have hnone : pyGet buf (bamoffset track sector) = none := by
        unfold pyGet
        rw [List.getElem?_eq_none]
        omega
      simp [deallocateblock, hnone, hoff]

set_option maxRecDepth 10000 in
/-- Claim C8 counterexample: tracks 0 and 41 are outside the valid
geometry, yet on a 256-byte buffer blockisfree completes without any
error (reading an in-bounds byte), and allocateblock at track 41 also
completes. -/
theorem C8_counterexample :
    blockisfree zeros256 0 0 = some false ∧
    blockisfree zeros256 41 0 = some false ∧
    (allocateblock zeros256 41 0).isSome = true := by
  decide

set_option maxRecDepth 10000 in
/-- Witness for the amended claim C8 at track 64 (offset 257, out of
range: all three operations report the error) on the all-zero buffer. -/
theorem C8_error_iff_offset_out_of_range_witness :
    zeros256.length = 256 ∧ C8property zeros256 64 0 :=
  ⟨by decide, C8_error_iff_offset_out_of_range zeros256 64 0 (by decide)⟩

/-- Claim C9: getsectors returns 21 on tracks 1..17, 19 on 18..24, 18 on
25..30, 17 on 31..40, and 0 outside the range 1..40, for every integer
track. -/
theorem C9_getsectors_zones (t : Int) :
    getsectors t =
      (if 1 ≤ t ∧ t ≤ 17 then 21
       else if 18 ≤ t ∧ t ≤ 24 then 19
       else if 25 ≤ t ∧ t ≤ 30 then 18
       else if 31 ≤ t ∧ t ≤ 40 then 17
       else 0) := by
  simp only [getsectors]
  split_ifs <;> omega

/-- Claim C10: the absolute sector index is linear in the sector
argument, and moving to the start of the next track adds exactly the
sector count of the current track. -/
theorem C10_getsectornumber_linear (t s : Nat) (h : 1 ≤ t) :
    getsectornumber t s = getsectornumber t 0 + s ∧
    getsectornumber (t + 1) 0 = getsectornumber t 0 + getsectors (t : Int) := by
  constructor
  · simp [getsectornumber]
  · simp only [getsectornumber, Nat.add_zero]
    have h1 : t + 1 - 1 = (t - 1) + 1 := by omega
    rw [h1, List.range'_concat]
    have h2 : 1 + (t - 1) = t := by omega
    simp [h2]

/-- Witness for claim C10 at track 2, sector 3. -/
theorem C10_getsectornumber_linear_witness :
    1 ≤ 2 ∧
    (getsectornumber 2 3 = getsectornumber 2 0 + 3 ∧
     getsectornumber (2 + 1) 0 = getsectornumber 2 0 + getsectors (2 : Int)) :=
  ⟨by decide, C10_getsectornumber_linear 2 3 (by decide)⟩

set_option maxRecDepth 10000 in
/-- Claim C2 counterexample: byte 0x09 does not round-trip (it comes
back as 0x20), and the PETtoASC table itself collides: entries 0xA0 and
0xE0 hold the same value, so 0xE0 comes back as 0xA0. -/
theorem C2_counterexample :
    byteRoundtrip 0x09 = some [0x20] ∧
    byteRoundtrip 0xE0 = some [0xA0] ∧
    PETtoASCtable[(0xA0 : Nat)]? = PETtoASCtable[(0xE0 : Nat)]? := by
  decide

set_option maxRecDepth 10000 in
/-- Claim C2 (amended): the round trip ASCtoPET(PETtoASC(bytes([b])))
returns the one-byte value b for every byte b below 0xE0 other than
0x09; it fails for 0x09 (tab) and for the 32 values 0xE0..0xFF, where
the PETtoASC table repeats its 0xA0..0xBF row. -/
theorem C2_roundtrip_partial (b : Nat) (h1 : b < 0xE0) (h2 : b ≠ 0x09) :
    byteRoundtrip b = some [b] := by
  revert h2
  revert b
  decide

set_option maxRecDepth 10000 in
/-- Witness for the amended claim C2 at byte 0x41. -/
theorem C2_roundtrip_partial_witness :
    ((0x41 : Nat) < 0xE0 ∧ (0x41 : Nat) ≠ 0x09) ∧ byteRoundtrip 0x41 = some [0x41] :=
  ⟨⟨by decide, by decide⟩, C2_roundtrip_partial 0x41 (by decide) (by decide)⟩

set_option maxRecDepth 10000 in
/-- Claim C3 counterexample: a 200-byte buffer is shorter than the
256 + 32 bytes the claim requires a Directory to reject, yet Dir
construction silently produces a structure, with no error at any
point. -/
theorem C3_counterexample :
    (List.replicate 200 (0 : Nat)).length < 256 + 32 ∧
    (Dirinit (List.replicate 200 0)).isSome = true := by
  constructor
  · decide
  · decide

set_option maxRecDepth 10000 in
/-- Claim C3 (amended): no buffer length is ever validated. BAM
construction stores any buffer without error; Dir construction on a
200-byte buffer silently produces a structure; and a too-short buffer
can only fail later through an out-of-bounds byte access inside the
parse (the empty buffer fails inside the free-block scan), never
through an up-front length check. -/
theorem C3_no_length_validation :
    (∀ buf : List Nat, BAMinit buf = some buf) ∧
    (Dirinit (List.replicate 200 0)).isSome = true ∧
    Dirinit [] = none := by
  refine ⟨fun buf => rfl, by decide, by decide⟩

/-- parseEntry records the slot base it was given. -/
theorem parseEntry_base (dir : List Nat) (base tb : Nat) (e : FileEntry)
    (h : parseEntry dir base tb = some e) : e.base = base := by
  simp only [parseEntry, Option.bind_eq_bind, Option.bind_eq_some] at h
  obtain ⟨ty, _, tr, _, se, _, nm, _, h⟩ := h
  cases h
  rfl

/-- Every entry produced by the slot loop either was already in the
accumulator or comes from a listed slot with a positive type byte. -/
theorem dirpassAux_mem (dir : List Nat) (ptrs : List Nat) :
    ∀ (acc fl : List FileEntry) (e : FileEntry),
      dirpassAux dir ptrs acc = some fl → e ∈ fl →
      e ∈ acc ∨ ∃ p ∈ ptrs, e.base = 0x20 * p ∧
        ∃ tb, pyGet dir (0x20 * p + 0x02) = some tb ∧ 0 < tb := by
  induction ptrs with
  | nil =>
    intro acc fl e h hme
    simp only [dirpassAux] at h
    cases h
    exact Or.inl hme
  | cons p rest ih =>
    intro acc fl e h hme
    simp only [dirpassAux, Option.bind_eq_bind] at h
    rcases hg : pyGet dir (0x20 * p + 0x02) with _ | tb
    · rw [hg] at h
      simp at h
    · rw [hg] at h
      simp only [Option.some_bind] at h
      by_cases htb : 0 < tb
      · rw [if_pos htb] at h
        rcases hp : parseEntry dir (0x20 * p) tb with _ | e2
        · rw [hp] at h
          simp at h
        · rw [hp] at h
          simp only [Option.some_bind] at h
          rcases ih (acc ++ [e2]) fl e h hme with hin | ⟨q, hq, hbase, htb2⟩
          · rcases List.mem_append.mp hin with h1 | h2
            · exact Or.inl h1
            · have he : e = e2 := by simpa using h2
              subst he
              exact Or.inr ⟨p, List.mem_cons_self _ _,
                parseEntry_base dir (0x20 * p) tb e hp, tb, hg, htb⟩
          · exact Or.inr ⟨q, List.mem_cons_of_mem _ hq, hbase, htb2⟩
      · rw [if_neg htb] at h
        rcases ih acc fl e h hme with hin | ⟨q, hq, hbase, htb2⟩
        · exact Or.inl hin
        · exact Or.inr ⟨q, List.mem_cons_of_mem _ hq, hbase, htb2⟩

set_option maxRecDepth 100000 in
/-- Claim C6: a slot whose type byte is zero contributes no entry to a
successful directory parse, and the concrete TEST DISK / HELLO scenario
parses to the stated title and entry fields. -/
theorem C6_skip_empty_slots (dir : List Nat) (ptr : Nat) (fl : List FileEntry)
    (h1 : dirpass dir = some fl) (h2 : pyGet dir (0x20 * ptr + 0x02) = some 0) :
    C6skipProp dir ptr fl ∧ C6scenarioProp := by
  constructor
  · intro e hme hbase
    rcases dirpassAux_mem dir _ [] fl e h1 hme with hin | ⟨q, _, hbaseq, tb, htb, hpos⟩
    · simp at hin
    · have hq : q = ptr := by omega
      subst hq
      rw [htb] at h2
      cases h2
      omega
  · refine ⟨by decide, by decide, by decide, by decide, by decide, by decide, by decide⟩

set_option maxRecDepth 100000 in
/-- Witness for claim C6 on a single all-zero slot (an empty slot, so
the parse yields no entries) at slot index 0. -/
theorem C6_skip_empty_slots_witness :
    (dirpass (List.replicate 32 0) = some [] ∧
     pyGet (List.replicate 32 0) (0x20 * 0 + 0x02) = some 0) ∧
    (C6skipProp (List.replicate 32 0) 0 [] ∧ C6scenarioProp) :=
  ⟨⟨by decide, by decide⟩,
   C6_skip_empty_slots (List.replicate 32 0) 0 [] (by decide) (by decide)⟩
